import Mathlib

/-!
Verification of `src/generate_password.py` (password-generator repository).

The script is embedded shallowly:
  - Python `set("...")` constants become deduplicated lists of characters;
    iteration order of a Python set is unspecified and irrelevant here.
  - `secrets.choice` draws from an indexable sequence using a
    cryptographically secure source; it is modelled by an oracle
    `rnd : Nat → Nat` supplying one arbitrary natural number per draw,
    reduced modulo the sequence length.  `secrets.choice` on an empty
    sequence raises `IndexError`; that is modelled as `none`.
  - Python exceptions are modelled with `Option` / `Except`: a raised
    exception is `none` (or `Except.error`).
  - `datetime.timedelta` is modelled by its total number of microseconds;
    constructing a timedelta whose day count exceeds 999999999 raises
    `OverflowError`, modelled as `none`.
  - The external `humanize` library (`intword`, `naturaldelta`) is out of
    scope per the specification; it is passed in as abstract functions.
-/

namespace PasswordGen

/-- `UPPER_CASE_CHARS = set("ABCDEFGHIJKLMNOPQRSTUVWXYZ")` (line 9). -/
def UPPER_CASE_CHARS : List Char := "ABCDEFGHIJKLMNOPQRSTUVWXYZ".toList.dedup

/-- `LOWER_CASE_CHARS = set("abcdefghijklmnopqrstuvwxyz")` (line 10). -/
def LOWER_CASE_CHARS : List Char := "abcdefghijklmnopqrstuvwxyz".toList.dedup

/-- `NUMBER_CHARS = set("0123456789")` (line 11). -/
def NUMBER_CHARS : List Char := "0123456789".toList.dedup

/-- `SYMBOL_CHARS = set("!@#$%^&*()")` (line 12). -/
def SYMBOL_CHARS : List Char := "!@#$%^&*()".toList.dedup

/-- `SECONDS_IN_A_YEAR = 365 * 24 * 60 * 60` (line 14). -/
def SECONDS_IN_A_YEAR : Nat := 365 * 24 * 60 * 60

/-- `AGE_OF_THE_UNIVERSE_Y = 13800000000` (line 15). -/
def AGE_OF_THE_UNIVERSE_Y : Nat := 13800000000

/-- `POTENTIAL_BF_ATTACKS_PER_SECOND = 1000000000` (line 17). -/
def POTENTIAL_BF_ATTACKS_PER_SECOND : Nat := 1000000000

/-- `assemble_charset` (lines 21-48): starts from an empty Python set,
adds each selected class alphabet with `set.update`, and returns
`list(charset)`.  Modelled as the deduplicated concatenation of the
selected alphabets (same elements; order of a Python set is
unspecified and irrelevant to every property below). -/
def assemble_charset (upper_case lower_case numbers symbols : Bool) : List Char :=
  ((if upper_case then UPPER_CASE_CHARS else []) ++
   (if lower_case then LOWER_CASE_CHARS else []) ++
   (if numbers then NUMBER_CHARS else []) ++
   (if symbols then SYMBOL_CHARS else [])).dedup

/-- `secrets.choice(seq)`: returns a member of `seq` chosen by the secure
random source (modelled by the arbitrary draw `r`), and raises
`IndexError` when `seq` is empty (modelled as `none`). -/
def secrets_choice (r : Nat) (seq : List Char) : Option Char :=
  if h : 0 < seq.length then some (seq.get ⟨r % seq.length, Nat.mod_lt r h⟩) else none

/-- The loop of `generate_password` (lines 71-77): `password = ""`, then
`length` times `password += secrets.choice(charset)`.  `k` counts the
remaining iterations; draw number `k` consumes oracle value `rnd k`. -/
def gen_chars (rnd : Nat → Nat) (charset : List Char) : Nat → Option (List Char)
  | 0 => some []
  | k + 1 =>
    match gen_chars rnd charset k, secrets_choice (rnd k) charset with
    | some acc, some c => some (acc ++ [c])
    | _, _ => none

/-- `generate_password(length, upper_case, lower_case, numbers, symbols)`
(lines 52-77).  The Python `length` is a signed integer; `range(length)`
iterates `max length 0` times, hence `Int.toNat`.  No validation of
`length` or of the charset happens inside this function. -/
def generate_password (rnd : Nat → Nat) (len : Int)
    (upper_case lower_case numbers symbols : Bool) : Option String :=
  (gen_chars rnd (assemble_charset upper_case lower_case numbers symbols) len.toNat).map
    String.mk

/-- The accumulator `possible_chars` of `compute_possibilities`
(lines 96-104): starts at 0 and adds `len(<class set>)` for each
selected class. -/
def possible_chars (upper_case lower_case numbers symbols : Bool) : Nat :=
  (if upper_case then UPPER_CASE_CHARS.length else 0) +
  (if lower_case then LOWER_CASE_CHARS.length else 0) +
  (if numbers then NUMBER_CHARS.length else 0) +
  (if symbols then SYMBOL_CHARS.length else 0)

/-- `compute_possibilities(length, ...)` (lines 81-108):
`possible_chars ** length` in arbitrary-precision Python integers,
modelled by `Nat` (the claims only concern `length ≥ 0`, where the
Python result is an `int`). -/
def compute_possibilities (len : Nat) (upper_case lower_case numbers symbols : Bool) : Nat :=
  possible_chars upper_case lower_case numbers symbols ^ len

/-- `timedelta.max` in microseconds:
`timedelta(days=999999999, hours=23, minutes=59, seconds=59, microseconds=999999)`,
i.e. `999999999 * 86400 * 10^6 + 86399 * 10^6 + 999999`. -/
def TIMEDELTA_MAX_US : Nat := 999999999 * 86400 * 1000000 + 86399 * 1000000 + 999999

/-- The exact value of the Python float `timedelta.max.total_seconds()`.
The real value is `86399999999999.999999`; an IEEE-754 double in the
range `[2^46, 2^47)` has an ulp of `2^-6 = 0.015625`, so the nearest
double is exactly `86400000000000.0` (distance `0.000001` versus
half-ulp `0.0078125`).  The script compares an `int` number of seconds
against this float; Python int-float comparison is mathematically
exact, so for integers the guard `seconds > timedelta.max.total_seconds()`
is precisely `seconds > 86400000000000`. -/
def TIMEDELTA_MAX_TOTAL_SECONDS : Nat := 86400000000000

/-- `timedelta(seconds=s)` for a nonnegative integer `s`: normalises to
`s / 86400` days and raises `OverflowError` when that day count exceeds
999999999 (modelled as `none`); otherwise the value holds `s * 10^6`
microseconds. -/
def timedelta_of_seconds (s : Nat) : Option Nat :=
  if s / 86400 ≤ 999999999 then some (s * 1000000) else none

/-- `get_timedelta(seconds)` (lines 112-128): returns `timedelta.max`
when `seconds` is above the float guard, else builds
`timedelta(seconds=seconds)` (which can itself overflow: see the
boundary analysis below). -/
def get_timedelta (seconds : Nat) : Option Nat :=
  if seconds > TIMEDELTA_MAX_TOTAL_SECONDS then some TIMEDELTA_MAX_US
  else timedelta_of_seconds seconds

/-- `get_natural_time_string(seconds)` (lines 132-157), parameterised by
the external `humanize.intword` and `humanize.naturaldelta` routines
(out-of-scope collaborators per the specification; `naturaldelta`
receives the timedelta as a microsecond count).  `none` models an
uncaught exception escaping the function. -/
def get_natural_time_string (intword naturaldelta : Nat → String) (seconds : Nat) :
    Option String :=
  if seconds > TIMEDELTA_MAX_TOTAL_SECONDS then
    let years := seconds / SECONDS_IN_A_YEAR
    if years > AGE_OF_THE_UNIVERSE_Y then
      let aou := years / AGE_OF_THE_UNIVERSE_Y
      some (intword aou ++ " times the age of the universe")
    else
      some (intword years ++ " years")
  else
    (get_timedelta seconds).map naturaldelta

/-- Outcomes of `main` (lines 174-220) relevant to the claims:
`invalidLength` models the `sys.exit(1)` at line 192, and
`uncaughtException` models a Python exception escaping `main`. -/
inductive MainError where
  | invalidLength
  | uncaughtException
deriving DecidableEq

/-- The default-application step of `main` (lines 199-204): when no class
flag is given, all four are switched on. -/
def apply_defaults (u l n s : Bool) : Bool × Bool × Bool × Bool :=
  if !u && !l && !n && !s then (true, true, true, true) else (u, l, n, s)

/-- The pure pipeline of `main` (lines 189-214): reject `length < 1` with
exit code 1, apply class defaults, then generate the password.  Printing
and the strength report are omitted; the returned string is the password
that gets printed. -/
def main_run (rnd : Nat → Nat) (len : Int) (u l n s : Bool) : Except MainError String :=
  if len < 1 then Except.error MainError.invalidLength
  else
    match apply_defaults u l n s with
    | (u2, l2, n2, s2) =>
      match generate_password rnd len u2 l2 n2 s2 with
      | some p => Except.ok p
      | none => Except.error MainError.uncaughtException

theorem mem_assemble_charset (u l n s : Bool) (c : Char) :
    c ∈ assemble_charset u l n s ↔
      (u = true ∧ c ∈ UPPER_CASE_CHARS) ∨ (l = true ∧ c ∈ LOWER_CASE_CHARS) ∨
      (n = true ∧ c ∈ NUMBER_CHARS) ∨ (s = true ∧ c ∈ SYMBOL_CHARS) := by
  cases u <;> cases l <;> cases n <;> cases s <;>
    simp [assemble_charset, List.mem_dedup, List.mem_append, or_assoc]

theorem secrets_choice_mem (r : Nat) (seq : List Char) (h : seq ≠ []) :
    ∃ c, secrets_choice r seq = some c ∧ c ∈ seq := by
  have hpos : 0 < seq.length := List.length_pos.mpr h
  refine ⟨seq.get ⟨r % seq.length, Nat.mod_lt r hpos⟩, ?_, List.get_mem _ _ _⟩
  simp [secrets_choice, hpos]

theorem gen_chars_total (rnd : Nat → Nat) (charset : List Char) (h : charset ≠ []) :
    ∀ k : Nat, ∃ cs, gen_chars rnd charset k = some cs ∧ cs.length = k ∧
      ∀ c ∈ cs, c ∈ charset := by
  intro k
  induction k with
  | zero => exact ⟨[], rfl, rfl, by simp⟩
  | succ k ih =>
    obtain ⟨acc, hacc, hlen, hmem⟩ := ih
    obtain ⟨c, hc, hcmem⟩ := secrets_choice_mem (rnd k) charset h
    refine ⟨acc ++ [c], by simp [gen_chars, hacc, hc], by simp [hlen], ?_⟩
    intro x hx
    rcases List.mem_append.mp hx with hx | hx
    · exact hmem x hx
    · rw [List.mem_singleton.mp hx]; exact hcmem

theorem gen_chars_empty (rnd : Nat → Nat) (k : Nat) :
    gen_chars rnd [] (k + 1) = none := by
  have hsc : secrets_choice (rnd k) ([] : List Char) = none := rfl
  cases hg : gen_chars rnd [] k <;> simp [gen_chars, hg, hsc]

theorem assemble_charset_ne_nil (u l n s : Bool)
    (hsel : u = true ∨ l = true ∨ n = true ∨ s = true) :
    assemble_charset u l n s ≠ [] := by
  rcases hsel with h | h | h | h <;> subst h
  · exact List.ne_nil_of_mem
      ((mem_assemble_charset true l n s 'A').mpr (Or.inl ⟨rfl, by decide⟩))
  · exact List.ne_nil_of_mem
      ((mem_assemble_charset u true n s 'a').mpr (Or.inr (Or.inl ⟨rfl, by decide⟩)))
  · exact List.ne_nil_of_mem
      ((mem_assemble_charset u l true s '0').mpr (Or.inr (Or.inr (Or.inl ⟨rfl, by decide⟩))))
  · exact List.ne_nil_of_mem
      ((mem_assemble_charset u l n true '!').mpr (Or.inr (Or.inr (Or.inr ⟨rfl, by decide⟩))))

/-- Claim C1: for every length at least 1 and every flag combination
selecting at least one character class, `generate_password` returns a
string of exactly that many characters, each a member of the union of
the selected class alphabets — whatever values the secure random
source delivers. -/
theorem generate_password_length_and_membership (rnd : Nat → Nat) (len : Int)
    (u l n s : Bool) (hlen : 1 ≤ len)
    (hsel : u = true ∨ l = true ∨ n = true ∨ s = true) :
    ∃ p : String, generate_password rnd len u l n s = some p ∧
      (p.length : Int) = len ∧
      ∀ c ∈ p.toList,
        (u = true ∧ c ∈ UPPER_CASE_CHARS) ∨ (l = true ∧ c ∈ LOWER_CASE_CHARS) ∨
        (n = true ∧ c ∈ NUMBER_CHARS) ∨ (s = true ∧ c ∈ SYMBOL_CHARS) := by
  have hne := assemble_charset_ne_nil u l n s hsel
  obtain ⟨cs, hcs, hclen, hmem⟩ := gen_chars_total rnd _ hne len.toNat
  refine ⟨String.mk cs, by simp [generate_password, hcs], ?_, ?_⟩
  · have h1 : (String.mk cs).length = cs.length := rfl
    rw [h1, hclen]
    omega
  · intro c hc
    exact (mem_assemble_charset u l n s c).mp (hmem c hc)

theorem generate_password_length_and_membership_witness :
    (1 : Int) ≤ 1 ∧
    (∃ p : String, generate_password (fun _ => 0) 1 true false false false = some p ∧
      (p.length : Int) = 1 ∧
      ∀ c ∈ p.toList,
        (true = true ∧ c ∈ UPPER_CASE_CHARS) ∨ (false = true ∧ c ∈ LOWER_CASE_CHARS) ∨
        (false = true ∧ c ∈ NUMBER_CHARS) ∨ (false = true ∧ c ∈ SYMBOL_CHARS)) :=
  ⟨by decide,
   generate_password_length_and_membership (fun _ => 0) 1 true false false false
     (by decide) (Or.inl rfl)⟩

/-- Claim C10: with length 0 the loop of `generate_password` never runs,
so it returns the empty string for every flag combination — even the
all-false one whose assembled charset is empty — and raises nothing. -/
theorem generate_password_zero_length (rnd : Nat → Nat) (u l n s : Bool) :
    generate_password rnd 0 u l n s = some "" := rfl

/-- Claim C5: the password-generation operation of the program rejects
every length below 1: `main` exits with code 1 (an invalid-length
failure) before any password is generated, for every flag combination
and whatever the random source would deliver. -/
theorem main_run_invalid_length (rnd : Nat → Nat) (len : Int) (u l n s : Bool)
    (h : len < 1) :
    main_run rnd len u l n s = Except.error MainError.invalidLength := by
  simp [main_run, h]

theorem main_run_invalid_length_witness :
    (0 : Int) < 1 ∧
    main_run (fun _ => 0) 0 true true true true = Except.error MainError.invalidLength :=
  ⟨by decide, main_run_invalid_length (fun _ => 0) 0 true true true true (by decide)⟩

/-- Claim C6: with all four class flags false and length at least 1,
`generate_password` fails (the first `secrets.choice` on the empty
charset raises, modelled as `none`) instead of returning a password;
and as soon as the assembled charset is non-empty, character selection
never fails, for any length and random source. -/
theorem generate_password_empty_charset_fails :
    (∀ (rnd : Nat → Nat) (len : Int), 1 ≤ len →
       generate_password rnd len false false false false = none) ∧
    (∀ (rnd : Nat → Nat) (len : Int) (u l n s : Bool),
       assemble_charset u l n s ≠ [] →
       ∃ p, generate_password rnd len u l n s = some p) := by
  constructor
  · intro rnd len hlen
    have hcs : assemble_charset false false false false = [] := rfl
    obtain ⟨k, hk⟩ : ∃ k, len.toNat = k + 1 := ⟨len.toNat - 1, by omega⟩
    simp [generate_password, hcs, hk, gen_chars_empty]
  · intro rnd len u l n s hne
    obtain ⟨cs, hcs, -, -⟩ := gen_chars_total rnd _ hne len.toNat
    exact ⟨String.mk cs, by simp [generate_password, hcs]⟩

theorem generate_password_empty_charset_fails_witness :
    ((1 : Int) ≤ 2 ∧ generate_password (fun _ => 0) 2 false false false false = none) ∧
    (assemble_charset true true true true ≠ [] ∧
     ∃ p, generate_password (fun _ => 0) 2 true true true true = some p) :=
  ⟨⟨by decide, generate_password_empty_charset_fails.1 (fun _ => 0) 2 (by decide)⟩,
   ⟨by decide,
    generate_password_empty_charset_fails.2 (fun _ => 0) 2 true true true true (by decide)⟩⟩

/-- Claim C8: `assemble_charset` with all flags false returns the empty
collection without error; for every flag combination the result has no
duplicate elements and its members are exactly the characters of the
alphabets whose flags are true (so a class whose flag is false is
never silently included). -/
theorem assemble_charset_exact_union :
    assemble_charset false false false false = [] ∧
    (∀ u l n s : Bool, (assemble_charset u l n s).Nodup) ∧
    (∀ (u l n s : Bool) (c : Char), c ∈ assemble_charset u l n s ↔
      (u = true ∧ c ∈ UPPER_CASE_CHARS) ∨ (l = true ∧ c ∈ LOWER_CASE_CHARS) ∨
      (n = true ∧ c ∈ NUMBER_CHARS) ∨ (s = true ∧ c ∈ SYMBOL_CHARS)) := by
  refine ⟨rfl, ?_, mem_assemble_charset⟩
  intro u l n s
  exact List.nodup_dedup _

/-- Claim C9: for every one of the 16 flag combinations, the number of
distinct characters that `assemble_charset` actually draws from equals
the `possible_chars` total summed inside `compute_possibilities`, so
the strength estimate uses the same alphabet size as the generator. -/
theorem assemble_charset_length_eq_possible_chars (u l n s : Bool) :
    (assemble_charset u l n s).length = possible_chars u l n s := by
  cases u <;> cases l <;> cases n <;> cases s <;> decide

/-- Reference computation following the words of the specification:
the sum of the sizes (cardinalities, counted over distinct characters)
of the selected class alphabets, raised to the power `length`, in
arbitrary-precision arithmetic. -/
def computeSpaceSize (len : Nat) (u l n s : Bool) : Nat :=
  ((if u then ("ABCDEFGHIJKLMNOPQRSTUVWXYZ".toList.toFinset.card) else 0) +
   (if l then ("abcdefghijklmnopqrstuvwxyz".toList.toFinset.card) else 0) +
   (if n then ("0123456789".toList.toFinset.card) else 0) +
   (if s then ("!@#$%^&*()".toList.toFinset.card) else 0)) ^ len

/-- Claim C2: for every length (hence in particular every length up to
1000) and every flag combination, `compute_possibilities` equals the
reference big-integer computation: the sum of the sizes of the selected
class alphabets raised to the power of the length, with no overflow or
truncation. -/
theorem compute_possibilities_eq_computeSpaceSize (len : Nat) (u l n s : Bool) :
    compute_possibilities len u l n s = computeSpaceSize len u l n s := by
  unfold compute_possibilities computeSpaceSize
  exact congrArg (· ^ len) (by cases u <;> cases l <;> cases n <;> cases s <;> decide)

/-- Claim C4 counterexample: the claim says the fixed symbol alphabet
`!@#$%^&*()` holds exactly 8 distinct symbol characters; in the code it
holds 10 (count them: `! @ # $ % ^ & * ( )`), so the count is not 8. -/
theorem symbol_chars_count_not_eight : ¬ SYMBOL_CHARS.length = 8 := by decide

/-- Claim C4 (amended): the fixed symbol class alphabet `!@#$%^&*()`
used for password generation and space-size computation contains
exactly 10 distinct symbol characters: `SYMBOL_CHARS` has 10 pairwise
distinct elements, the symbols-only charset the generator draws from
has 10 characters, and the symbols-only term of `possible_chars` in the
space-size computation is 10. -/
theorem symbol_chars_count_is_ten :
    SYMBOL_CHARS.length = 10 ∧ SYMBOL_CHARS.Nodup ∧
    (assemble_charset false false false true).length = 10 ∧
    possible_chars false false false true = 10 := by decide

/-- Claim C3 (code bug at the ceiling boundary): the integer
`seconds = 86400000000000` exceeds the native duration ceiling
`timedelta.max` (first conjunct: `timedelta.max` holds fewer
microseconds than 86400000000000 seconds), but slips past the guard
because `timedelta.max.total_seconds()` rounds up to the float
`86400000000000.0`; the code then builds
`timedelta(seconds=86400000000000)`, whose normalised day count `10^9`
overflows.  The call raises `OverflowError` (modelled `none`) instead
of returning a phrase — for every choice of the humanize routines. -/
theorem get_natural_time_string_boundary_raises (intword naturaldelta : Nat → String) :
    TIMEDELTA_MAX_US < 86400000000000 * 1000000 ∧
    get_natural_time_string intword naturaldelta 86400000000000 = none := by
  refine ⟨by decide, ?_⟩
  have h1 : ¬ TIMEDELTA_MAX_TOTAL_SECONDS < 86400000000000 := by decide
  have h2 : get_timedelta 86400000000000 = none := by decide
  simp [get_natural_time_string, h1, h2]

/-- Claim C7 counterexample: `seconds = 86400000000000` exceeds the
native duration ceiling `timedelta.max` (first conjunct), and its year
count is below the age-of-the-universe threshold (second conjunct), so
the claim demands the word-formatted years followed by " years"; the
code instead raises (result `none`), so it renders no such phrase
(third conjunct, with the word formatter instantiated to a concrete
function). -/
theorem natural_time_overflow_formula_boundary_counterexample :
    TIMEDELTA_MAX_US < 86400000000000 * 1000000 ∧
    86400000000000 / SECONDS_IN_A_YEAR ≤ 13800000000 ∧
    ¬ get_natural_time_string (fun _ => "") (fun _ => "") 86400000000000 =
        some ("" ++ " years") := by
  refine ⟨by decide, by decide, ?_⟩
  have h : get_natural_time_string (fun _ => "") (fun _ => "") 86400000000000 = none := by
    decide
  simp [h]

/-- Claim C7 (amended): for every `seconds` strictly greater than
86400000000000 — the exact value of the float
`timedelta.max.total_seconds()` that the guard compares against —
`get_natural_time_string` computes `years = seconds // 31536000`
(a 365-day year, `365*24*60*60` seconds, no leap adjustment); if
`years > 13800000000` it renders the word-formatted
`years // 13800000000` followed by " times the age of the universe",
and otherwise the word-formatted `years` followed by " years". -/
theorem get_natural_time_string_overflow_formula (intword naturaldelta : Nat → String)
    (seconds : Nat) (h : 86400000000000 < seconds) :
    (13800000000 < seconds / 31536000 →
      get_natural_time_string intword naturaldelta seconds =
        some (intword (seconds / 31536000 / 13800000000) ++
          " times the age of the universe")) ∧
    (seconds / 31536000 ≤ 13800000000 →
      get_natural_time_string intword naturaldelta seconds =
        some (intword (seconds / 31536000) ++ " years")) := by
  constructor
  · intro h2
    simp [get_natural_time_string, TIMEDELTA_MAX_TOTAL_SECONDS, SECONDS_IN_A_YEAR,
      AGE_OF_THE_UNIVERSE_Y, h, h2]
  · intro h2
    have h3 : ¬ 13800000000 < seconds / 31536000 := Nat.not_lt.mpr h2
    simp [get_natural_time_string, TIMEDELTA_MAX_TOTAL_SECONDS, SECONDS_IN_A_YEAR,
      AGE_OF_THE_UNIVERSE_Y, h, h3]

theorem get_natural_time_string_overflow_formula_witness :
    86400000000000 < 1000000000000000000000000000000 ∧
    13800000000 < 1000000000000000000000000000000 / 31536000 ∧
    get_natural_time_string (fun _ => "") (fun _ => "") 1000000000000000000000000000000 =
      some ("" ++ " times the age of the universe") :=
  ⟨by decide, by decide,
   (get_natural_time_string_overflow_formula (fun _ => "") (fun _ => "")
      1000000000000000000000000000000 (by decide)).1 (by decide)⟩

end PasswordGen
